import Mathlib

/-!
Shallow embedding of the `aqi` monitoring core (`src/aqi/sensor.py`).

The external collaborators (`AQICalculator`, `SensorInstructionSet`,
`aqi.reading.Reading`, `aqi.measurement_modes`) are not in the source tree:
the calculator is kept abstract (a parameter `calculator : RawMeasurement → Reading`),
and the `Reading` record with its lossless serialization is modelled from the
spec.  Time-of-day values are naturals (seconds since midnight components);
timestamps and pollutant concentrations are exact rationals.
-/

/-- Raw measurement handed to the calculator: the dict
`{time, pm25, pm10}` built by `aggregate_readings` or returned by
`instruction_set.query_data()`. -/
structure RawMeasurement where
  time : ℚ
  pm25 : ℚ
  pm10 : ℚ
deriving DecidableEq, Repr

/-- Modelled from the spec: `aqi.reading.Reading` is not under `src/`.
A Reading carries the timestamp, the raw pollutant concentrations and the
per-pollutant computed index values plus category bands (kept here as an
opaque association list, filled in by the external Calculator). -/
structure Reading where
  time : ℚ
  pm25 : ℚ
  pm10 : ℚ
  aqis : List (String × ℚ × String)
deriving DecidableEq, Repr

/-- Modelled from the spec: the structured record `Reading.to_dict` emits;
serialization is lossless, so the dict carries every field. -/
structure ReadingDict where
  time : ℚ
  pm25 : ℚ
  pm10 : ℚ
  aqis : List (String × ℚ × String)
deriving DecidableEq, Repr

/-- Modelled from the spec: `Reading.to_dict` (round-trip must reproduce all
fields exactly). -/
def Reading.to_dict (r : Reading) : ReadingDict :=
  ⟨r.time, r.pm25, r.pm10, r.aqis⟩

/-- Modelled from the spec: `Reading.from_dict`, exact inverse of
`Reading.to_dict` on well-formed records. -/
def Reading.from_dict (d : ReadingDict) : Reading :=
  ⟨d.time, d.pm25, d.pm10, d.aqis⟩

/-- One top-level JSON element of the readings file: either a well-formed
reading record, or some other JSON value on which `Reading.from_dict`
raises. -/
inductive FileRecord
  | valid (d : ReadingDict)
  | invalid
deriving DecidableEq, Repr

/-- Contents of the path passed to `save_readings_to_file`:
the file may be absent, may hold a JSON list of elements, or may hold
anything that `json.load` cannot turn into a list (garbage, non-list JSON,
or the empty file created by `open(path, 'w+')`). -/
inductive FileData
  | absent
  | list (recs : List FileRecord)
  | notAList
deriving DecidableEq, Repr

/-- `Reading.from_dict(reading)` inside the list comprehension: fails (raises)
on a JSON element that is not a reading record. -/
def parseRecord : FileRecord → Option Reading
  | .valid d => some (Reading.from_dict d)
  | .invalid => none

/-- The comprehension `[Reading.from_dict(reading) for reading in json.load(f)]`:
all elements must parse, a single failure aborts the whole parse. -/
def parseRecords : List FileRecord → Option (List Reading)
  | [] => some []
  | c :: cs =>
    match parseRecord c, parseRecords cs with
    | some r, some rs => some (r :: rs)
    | _, _ => none

/-- The guarded load in `save_readings_to_file` (lines 162-172): a missing file
is created empty (and the empty file fails `json.load`), and any exception in
the `try` block resets `existing_data` to `[]`. -/
def loadExisting : FileData → List Reading
  | .absent => []
  | .notAList => []
  | .list recs => (parseRecords recs).getD []

/-- `AirQualitySensor.save_readings_to_file` (lines 156-180): read back the
existing records (corruption-tolerant), append the in-memory buffer, overwrite
the file with the serialized merge, clear the buffer.  Returns the new file
contents and the new buffer. -/
def save_readings_to_file (file : FileData) (readings : List Reading) :
    FileData × List Reading :=
  let existing_data := loadExisting file
  let all_data := existing_data ++ readings
  (FileData.list (all_data.map fun r => FileRecord.valid r.to_dict), [])

/-- A file whose content does not parse as a valid sequence of reading
records (distinct from a merely absent file). -/
def fileCorrupt : FileData → Bool
  | .absent => false
  | .notAList => true
  | .list recs => (parseRecords recs).isNone

/-- Modelled from the spec: a measurement mode from the (missing)
`aqi.measurement_modes` registry.  Field reads in `sensor.py` fix the shape:
durations, an optional aggregation identifier and the night flag. -/
structure Mode where
  measurement_period : ℚ
  sleep_time : ℚ
  monitoring_duration : Option ℚ
  aggregation : Option String
  night_monitoring : Bool
deriving DecidableEq, Repr

/-- Python truthiness of `self.mode.monitoring_duration`: falsy when unset or
a zero duration. -/
def durationTruthy : Option ℚ → Bool
  | none => false
  | some d => decide (d ≠ 0)

/-- A local clock time (`datetime.datetime.now().time()`). -/
structure ClockTime where
  hour : ℕ
  minute : ℕ
  second : ℕ
deriving DecidableEq, Repr

/-- Seconds since midnight; `datetime.time` comparison is chronological. -/
def ClockTime.toSeconds (t : ClockTime) : ℕ :=
  t.hour * 3600 + t.minute * 60 + t.second

/-- `AirQualitySensor.is_night` (lines 146-154), literally as written:
`now >= night_start and now < night_end` with `night_start = 21:00` and
`night_end = 09:30`. -/
def is_night (now : ClockTime) : Bool :=
  let night_start : ClockTime := ⟨21, 0, 0⟩
  let night_end : ClockTime := ⟨9, 30, 0⟩
  decide (night_start.toSeconds ≤ now.toSeconds) &&
    decide (now.toSeconds < night_end.toSeconds)

/-- The predicate the spec describes for night: `21:00 ≤ t` or `t < 09:30`
(stated from the spec, for comparison with the source's `is_night`). -/
def spec_is_night (now : ClockTime) : Bool :=
  decide ((⟨21, 0, 0⟩ : ClockTime).toSeconds ≤ now.toSeconds) ||
    decide (now.toSeconds < (⟨9, 30, 0⟩ : ClockTime).toSeconds)

/-- `AirQualitySensor.aggregate_readings` (lines 127-144).  Returns `none`
when the Python method raises (indexing `self.readings[0]` /
`self.readings[-1]` on an empty buffer), otherwise the new buffer. -/
def aggregate_readings (calculator : RawMeasurement → Reading) (mode : Mode)
    (readings : List Reading) : Option (List Reading) :=
  if mode.aggregation.isNone then
    some readings
  else if mode.aggregation = some "mean" then
    match readings with
    | [] => none
    | r0 :: rest =>
      let rLast := (r0 :: rest).getLast (List.cons_ne_nil r0 rest)
      let raw_average_reading : RawMeasurement :=
        { time := r0.time + (r0.time + rLast.time) / 2
          pm25 := ((r0 :: rest).map Reading.pm25).sum
          pm10 := ((r0 :: rest).map Reading.pm10).sum }
      some [calculator raw_average_reading]
  else
    some readings

/-- Observable side effects of the controller, in program order. -/
inductive Event
  | takeReading
  | blockFor (d : ℚ)
  | aggregate
  | flushFile
  | sensorSleep
  | sensorWake
  | logError
deriving DecidableEq, Repr

/-- In-memory buffer plus the readings file. -/
structure SensorState where
  readings : List Reading
  file : FileData
deriving DecidableEq, Repr

/-- `AirQualitySensor.take_reading` (lines 116-125): compute a Reading from
the queried raw data, append it to the buffer, then block for
`measurement_period`. -/
def take_reading (calculator : RawMeasurement → Reading) (mode : Mode)
    (raw : RawMeasurement) (st : SensorState) : SensorState × List Event :=
  ({ st with readings := st.readings ++ [calculator raw] },
   [Event.takeReading, Event.blockFor mode.measurement_period])

/-- `AirQualitySensor._carry_out_monitoring_cycle` (lines 93-114).
`now` is the clock reading at entry, `postSleepNow` the clock reading taken
after the `sleep_time` block.  `none` models an uncaught exception (comparing
a timedelta with an unset duration, or an empty-buffer `mean` aggregation). -/
def carry_out_monitoring_cycle (calculator : RawMeasurement → Reading) (mode : Mode)
    (now postSleepNow : ℚ) (raw : RawMeasurement) (st : SensorState)
    (start_time : ℚ) : Option (ℚ × SensorState × List Event) :=
  match mode.monitoring_duration with
  | none => none
  | some dur =>
    if now - start_time < dur then
      let p := take_reading calculator mode raw st
      some (start_time, p.1, p.2)
    else
      match aggregate_readings calculator mode st.readings with
      | none => none
      | some aggregated =>
        let p := save_readings_to_file st.file aggregated
        some (postSleepNow, ⟨p.2, p.1⟩,
          [Event.aggregate, Event.flushFile, Event.sensorSleep,
           Event.blockFor mode.sleep_time, Event.sensorWake])

/-- One iteration of the infinite loops in `AirQualitySensor.monitor`
(lines 56-91): the continuous branch when `sleep_time == 0`, the windowed
branch otherwise; a night-gated iteration just re-enters the loop. -/
def monitorIteration (calculator : RawMeasurement → Reading) (mode : Mode)
    (clock : ClockTime) (now postSleepNow : ℚ) (raw : RawMeasurement)
    (st : SensorState) (start_time : ℚ) :
    Option (ℚ × SensorState × List Event) :=
  if mode.sleep_time = 0 then
    if !mode.night_monitoring then
      if is_night clock then
        some (start_time, st, [])
      else
        let p := take_reading calculator mode raw st
        some (start_time, p.1, p.2)
    else
      let p := take_reading calculator mode raw st
      some (start_time, p.1, p.2)
  else
    if !mode.night_monitoring then
      if is_night clock then
        some (start_time, st, [])
      else if durationTruthy mode.monitoring_duration then
        carry_out_monitoring_cycle calculator mode now postSleepNow raw st start_time
      else
        let p := take_reading calculator mode raw st
        some (start_time, p.1, p.2)
    else
      if durationTruthy mode.monitoring_duration then
        carry_out_monitoring_cycle calculator mode now postSleepNow raw st start_time
      else
        let p := take_reading calculator mode raw st
        some (start_time, p.1, p.2)

/-- `AirQualitySensor.__exit__` (lines 37-45), the teardown Python runs
exactly once when the `with self:` block in `monitor` unwinds: log the
exception if any, put the sensor to sleep, flush the buffer to the readings
file.  `exc` is the exception information (`none` for a clean exit). -/
def sensorExit (exc : Option String) (st : SensorState) :
    SensorState × List Event :=
  let logEvents : List Event :=
    match exc with
    | some _ => [Event.logError]
    | none => []
  let p := save_readings_to_file st.file st.readings
  (⟨p.2, p.1⟩, logEvents ++ [Event.sensorSleep, Event.flushFile])

/-! ### Helper lemmas and sample values -/

/-- Serialize-then-parse round trip on a whole buffer. -/
theorem parseRecords_roundtrip (rs : List Reading) :
    parseRecords (rs.map fun r => FileRecord.valid r.to_dict) = some rs := by
  induction rs with
  | nil => rfl
  | cons r rs ih =>
    simp only [List.map_cons, parseRecords, parseRecord, Reading.from_dict,
      Reading.to_dict] at ih ⊢
    rw [ih]

/-- Reading back the `.list` constructor. -/
theorem loadExisting_list (recs : List FileRecord) :
    loadExisting (FileData.list recs) = (parseRecords recs).getD [] := rfl

/-- The file component written by a flush. -/
theorem save_file_fst (file : FileData) (buf : List Reading) :
    (save_readings_to_file file buf).1 =
      FileData.list ((loadExisting file ++ buf).map
        fun r => FileRecord.valid r.to_dict) := rfl

/-- The source's night check is constantly false: it demands
`t ≥ 21:00` and `t < 09:30` at once. -/
theorem is_night_eq_false (t : ClockTime) : is_night t = false := by
  have h : ¬ ((⟨21, 0, 0⟩ : ClockTime).toSeconds ≤ t.toSeconds ∧
      t.toSeconds < (⟨9, 30, 0⟩ : ClockTime).toSeconds) := by
    simp only [ClockTime.toSeconds]
    omega
  simp only [is_night, Bool.and_eq_false_iff, decide_eq_false_iff_not]
  by_cases h1 : (⟨21, 0, 0⟩ : ClockTime).toSeconds ≤ t.toSeconds
  · exact Or.inr fun h2 => h ⟨h1, h2⟩
  · exact Or.inl h1

/-- A concrete reading used by witnesses. -/
def sampleReading : Reading :=
  { time := 10, pm25 := 5, pm10 := 10, aqis := [("pm25", 21, "Low")] }

/-- A second concrete reading used by witnesses. -/
def sampleReading2 : Reading :=
  { time := 20, pm25 := 7, pm10 := 9, aqis := [("pm25", 30, "Low")] }

/-- A calculator instance used by witnesses: copies the raw fields and adds
no bands. -/
def sampleCalculator (raw : RawMeasurement) : Reading :=
  { time := raw.time, pm25 := raw.pm25, pm10 := raw.pm10, aqis := [] }

/-- A windowed mode with `mean` aggregation, used by witnesses. -/
def sampleMeanMode : Mode :=
  { measurement_period := 5
    sleep_time := 3300
    monitoring_duration := some 300
    aggregation := some "mean"
    night_monitoring := false }

/-- A windowed mode without `monitoring_duration` or aggregation, used by
witnesses. -/
def sampleNoDurationMode : Mode :=
  { measurement_period := 10
    sleep_time := 50
    monitoring_duration := none
    aggregation := none
    night_monitoring := true }

/-! ### Claim theorems -/

/-- C1 — For every file state and every buffer, a successful
`save_readings_to_file` leaves the file holding exactly the records that
previously parsed from the file followed by this cycle's buffer, in that
order, and leaves the in-memory buffer empty. -/
theorem save_file_appends_and_clears (file : FileData) (buf : List Reading) :
    (save_readings_to_file file buf).1 =
      FileData.list ((loadExisting file ++ buf).map
        fun r => FileRecord.valid r.to_dict) ∧
    loadExisting (save_readings_to_file file buf).1 = loadExisting file ++ buf ∧
    (save_readings_to_file file buf).2 = [] := by
  refine ⟨rfl, ?_, rfl⟩
  rw [save_file_fst, loadExisting_list, parseRecords_roundtrip]
  rfl

/-- C2 — The claim says `is_night` is true exactly on `[21:00, 09:30)`, so in
particular at 22:00; the code tests the wrap-around interval with a
conjunction (`now >= 21:00 and now < 09:30`), which is unsatisfiable, so
`is_night` is constantly false while the spec's predicate holds at 22:00. -/
theorem is_night_code_bug :
    is_night ⟨22, 0, 0⟩ = false ∧ spec_is_night ⟨22, 0, 0⟩ = true ∧
    ∀ t : ClockTime, is_night t = false :=
  ⟨rfl, rfl, is_night_eq_false⟩

/-- C3 — Flushing over a file whose content does not parse as a valid record
sequence succeeds and yields a file containing exactly the buffer's records
(the prior content is discarded). -/
theorem save_file_corruption_recovery (file : FileData) (buf : List Reading)
    (h : fileCorrupt file = true) :
    save_readings_to_file file buf =
      (FileData.list (buf.map fun r => FileRecord.valid r.to_dict), []) ∧
    loadExisting (save_readings_to_file file buf).1 = buf := by
  have hload : loadExisting file = [] := by
    cases file with
    | absent => simp [fileCorrupt] at h
    | notAList => rfl
    | list recs =>
      simp only [fileCorrupt, Option.isNone_iff_eq_none] at h
      simp [loadExisting_list, h]
  constructor
  · simp [save_readings_to_file, hload]
  · rw [save_file_fst, hload, loadExisting_list]
    simp [parseRecords_roundtrip]

/-- C3 witness: flushing one concrete reading over a garbage file. -/
theorem save_file_corruption_recovery_witness :
    fileCorrupt FileData.notAList = true ∧
    save_readings_to_file FileData.notAList [sampleReading] =
      (FileData.list [FileRecord.valid sampleReading.to_dict], []) :=
  ⟨rfl, (save_file_corruption_recovery FileData.notAList [sampleReading] rfl).1⟩

/-- C6 — With `mean` aggregation and a non-empty buffer, `aggregate_readings`
builds one synthetic raw measurement whose `pm25` and `pm10` are the sums of
the buffered concentrations and whose time is `t0 + (t0 + t_last) / 2`, and
replaces the buffer with the Calculator's single output for it. -/
theorem mean_aggregation_formula (calculator : RawMeasurement → Reading)
    (mode : Mode) (r0 : Reading) (rest : List Reading)
    (h : mode.aggregation = some "mean") :
    aggregate_readings calculator mode (r0 :: rest) =
      some [calculator
        { time := r0.time +
            (r0.time + ((r0 :: rest).getLast (List.cons_ne_nil r0 rest)).time) / 2
          pm25 := ((r0 :: rest).map Reading.pm25).sum
          pm10 := ((r0 :: rest).map Reading.pm10).sum }] := by
  simp [aggregate_readings, h]

/-- C6 witness: two concrete readings through a concrete calculator; the
synthetic measurement has time `10 + (10 + 20) / 2 = 25` and summed
concentrations `5 + 7 = 12` and `10 + 9 = 19`. -/
theorem mean_aggregation_formula_witness :
    sampleMeanMode.aggregation = some "mean" ∧
    aggregate_readings sampleCalculator sampleMeanMode
        [sampleReading, sampleReading2] =
      some [{ time := 25, pm25 := 12, pm10 := 19, aqis := [] }] := by
  refine ⟨rfl, ?_⟩
  rw [mean_aggregation_formula sampleCalculator sampleMeanMode sampleReading
    [sampleReading2] rfl]
  norm_num [sampleCalculator, sampleReading, sampleReading2]

/-- C7 — With `mean` aggregation, any buffer of `N ≥ 1` readings aggregates
to a buffer of exactly one Reading. -/
theorem mean_aggregation_yields_single (calculator : RawMeasurement → Reading)
    (mode : Mode) (r0 : Reading) (rest : List Reading)
    (h : mode.aggregation = some "mean") :
    ∃ r, aggregate_readings calculator mode (r0 :: rest) = some [r] :=
  ⟨_, mean_aggregation_formula calculator mode r0 rest h⟩

/-- C7 witness: a concrete two-element buffer aggregates to one reading. -/
theorem mean_aggregation_yields_single_witness :
    sampleMeanMode.aggregation = some "mean" ∧
    ∃ r, aggregate_readings sampleCalculator sampleMeanMode
        [sampleReading, sampleReading2] = some [r] :=
  ⟨rfl, mean_aggregation_yields_single sampleCalculator sampleMeanMode
    sampleReading [sampleReading2] rfl⟩

/-- C8 — With aggregation unset, `aggregate_readings` is a no-op: it returns
the buffer unchanged (same count, same order, same fields) and touches
nothing else (in the embedding it reads no other state at all). -/
theorem no_aggregation_noop (calculator : RawMeasurement → Reading)
    (mode : Mode) (buf : List Reading) (h : mode.aggregation = none) :
    aggregate_readings calculator mode buf = some buf := by
  simp [aggregate_readings, h]

/-- C8 witness: a concrete buffer is returned untouched. -/
theorem no_aggregation_noop_witness :
    sampleNoDurationMode.aggregation = none ∧
    aggregate_readings sampleCalculator sampleNoDurationMode
        [sampleReading, sampleReading2] = some [sampleReading, sampleReading2] :=
  ⟨rfl, no_aggregation_noop sampleCalculator sampleNoDurationMode
    [sampleReading, sampleReading2] rfl⟩

/-- C10 — `mean` aggregation indexes the first and last buffer elements, so a
non-empty buffer is a necessary precondition: on the empty buffer the
operation fails (IndexError, modelled as `none`) instead of acting as a
no-op, while on any non-empty buffer it succeeds. -/
theorem mean_aggregation_needs_nonempty (calculator : RawMeasurement → Reading)
    (mode : Mode) (h : mode.aggregation = some "mean") :
    aggregate_readings calculator mode [] = none ∧
    ∀ buf : List Reading, buf ≠ [] →
      (aggregate_readings calculator mode buf).isSome = true := by
  constructor
  · simp [aggregate_readings, h]
  · intro buf hb
    cases buf with
    | nil => exact absurd rfl hb
    | cons r0 rest => simp [aggregate_readings, h]

/-- C10 witness: the empty buffer fails, a concrete singleton succeeds. -/
theorem mean_aggregation_needs_nonempty_witness :
    sampleMeanMode.aggregation = some "mean" ∧
    aggregate_readings sampleCalculator sampleMeanMode [] = none ∧
    (aggregate_readings sampleCalculator sampleMeanMode [sampleReading]).isSome
      = true :=
  ⟨rfl,
   (mean_aggregation_needs_nonempty sampleCalculator sampleMeanMode rfl).1,
   (mean_aggregation_needs_nonempty sampleCalculator sampleMeanMode rfl).2
     [sampleReading] (List.cons_ne_nil sampleReading [])⟩

/-- A concrete raw measurement used by witnesses. -/
def sampleRaw : RawMeasurement := { time := 30, pm25 := 2, pm10 := 3 }

/-- C4 — With a monitoring duration set: if `now - s` is below it, the cycle
takes exactly one reading and returns the window start unchanged; otherwise
it aggregates the buffer, flushes it, sleeps the sensor, blocks for
`sleep_time`, wakes the sensor — in that order — and returns the post-sleep
`now` as the new window start. -/
theorem monitoring_cycle_cases (calculator : RawMeasurement → Reading)
    (mode : Mode) (dur now postSleepNow s : ℚ) (raw : RawMeasurement)
    (st : SensorState) (hd : mode.monitoring_duration = some dur) :
    (now - s < dur →
      carry_out_monitoring_cycle calculator mode now postSleepNow raw st s =
        some (s, { st with readings := st.readings ++ [calculator raw] },
          [Event.takeReading, Event.blockFor mode.measurement_period])) ∧
    (¬ now - s < dur → ∀ aggregated,
      aggregate_readings calculator mode st.readings = some aggregated →
      carry_out_monitoring_cycle calculator mode now postSleepNow raw st s =
        some (postSleepNow,
          ⟨[], FileData.list ((loadExisting st.file ++ aggregated).map
            fun r => FileRecord.valid r.to_dict)⟩,
          [Event.aggregate, Event.flushFile, Event.sensorSleep,
           Event.blockFor mode.sleep_time, Event.sensorWake])) := by
  constructor
  · intro hlt
    simp [carry_out_monitoring_cycle, hd, hlt, take_reading]
  · intro hge aggregated hagg
    simp [carry_out_monitoring_cycle, hd, hge, hagg, save_readings_to_file]

/-- C4 witness: with duration 300 and window start 0, at `now = 100` one
reading is taken and the start is kept; at `now = 400` the one-element buffer
is aggregated, flushed, and the cycle sleeps/blocks/wakes and returns the
post-sleep clock 1000. -/
theorem monitoring_cycle_cases_witness :
    carry_out_monitoring_cycle sampleCalculator sampleMeanMode 100 1000
        sampleRaw ⟨[sampleReading], FileData.absent⟩ 0 =
      some (0, ⟨[sampleReading, sampleCalculator sampleRaw], FileData.absent⟩,
        [Event.takeReading, Event.blockFor 5]) ∧
    carry_out_monitoring_cycle sampleCalculator sampleMeanMode 400 1000
        sampleRaw ⟨[sampleReading], FileData.absent⟩ 0 =
      some (1000, ⟨[], FileData.list [FileRecord.valid ⟨20, 5, 10, []⟩]⟩,
        [Event.aggregate, Event.flushFile, Event.sensorSleep,
         Event.blockFor 3300, Event.sensorWake]) := by
  constructor
  · exact (monitoring_cycle_cases sampleCalculator sampleMeanMode 300 100 1000
      0 sampleRaw ⟨[sampleReading], FileData.absent⟩ rfl).1 (by norm_num)
  · have hagg : aggregate_readings sampleCalculator sampleMeanMode
        [sampleReading] = some [⟨20, 5, 10, []⟩] := by
      norm_num [aggregate_readings, sampleMeanMode, sampleCalculator,
        sampleReading]
    exact (monitoring_cycle_cases sampleCalculator sampleMeanMode 300 400 1000
      0 sampleRaw ⟨[sampleReading], FileData.absent⟩ rfl).2 (by norm_num)
      [⟨20, 5, 10, []⟩] hagg

/-- C5 — The teardown `__exit__` runs when the `with` block in `monitor`
unwinds (Python guarantees it runs exactly once per session, which the
embedding reflects by calling `sensorExit` once); whatever the interrupting
exception was — including none — it performs exactly one sensor-sleep
followed by exactly one flush of the current buffer. -/
theorem exit_teardown_once (exc : Option String) (st : SensorState) :
    sensorExit exc st =
      (⟨[], FileData.list ((loadExisting st.file ++ st.readings).map
          fun r => FileRecord.valid r.to_dict)⟩,
        (match exc with | some _ => [Event.logError] | none => []) ++
          [Event.sensorSleep, Event.flushFile]) ∧
    (sensorExit exc st).2.count Event.sensorSleep = 1 ∧
    (sensorExit exc st).2.count Event.flushFile = 1 := by
  cases exc with
  | none => exact ⟨rfl, rfl, rfl⟩
  | some e => exact ⟨rfl, rfl, rfl⟩

/-- C9 — In a mode with `sleep_time > 0` and `monitoring_duration` unset,
every loop iteration takes a reading directly (the night gate, being
constantly false, never suppresses it) and the iteration's outcome never
consults `sleep_time`: replacing `sleep_time` by any value leaves the
outcome unchanged, and no block of length `sleep_time` is emitted. -/
theorem windowed_without_duration (calculator : RawMeasurement → Reading)
    (mode : Mode) (clock : ClockTime) (now postSleepNow : ℚ)
    (raw : RawMeasurement) (st : SensorState) (s : ℚ)
    (hs : 0 < mode.sleep_time) (hd : mode.monitoring_duration = none) :
    monitorIteration calculator mode clock now postSleepNow raw st s =
      some (s, { st with readings := st.readings ++ [calculator raw] },
        [Event.takeReading, Event.blockFor mode.measurement_period]) ∧
    ∀ t : ℚ, t ≠ 0 →
      monitorIteration calculator { mode with sleep_time := t } clock now
          postSleepNow raw st s =
        monitorIteration calculator mode clock now postSleepNow raw st s := by
  constructor
  · cases hnm : mode.night_monitoring <;>
      simp [monitorIteration, hs.ne', hd, is_night_eq_false, durationTruthy,
        take_reading, hnm]
  · intro t ht
    cases hnm : mode.night_monitoring <;>
      simp [monitorIteration, hs.ne', ht, hd, is_night_eq_false,
        durationTruthy, take_reading, hnm]

/-- C9 witness: a concrete no-duration windowed mode takes a reading at a
night-time clock value and ignores `sleep_time`. -/
theorem windowed_without_duration_witness :
    (0 : ℚ) < sampleNoDurationMode.sleep_time ∧
    sampleNoDurationMode.monitoring_duration = none ∧
    monitorIteration sampleCalculator sampleNoDurationMode ⟨22, 0, 0⟩ 0 0
        sampleRaw ⟨[], FileData.absent⟩ 0 =
      some (0, ⟨[sampleCalculator sampleRaw], FileData.absent⟩,
        [Event.takeReading, Event.blockFor 10]) :=
  ⟨by norm_num [sampleNoDurationMode], rfl,
   (windowed_without_duration sampleCalculator sampleNoDurationMode ⟨22, 0, 0⟩
       0 0 sampleRaw ⟨[], FileData.absent⟩ 0
       (by norm_num [sampleNoDurationMode]) rfl).1⟩
